import Mathlib

/-!
Shallow embedding of TheDailyChronicle — a client-side news flipbook reader.

The repository has two source files:
  * `src/index.tsx`: a fetch client (`fetchNews`) whose cache is consulted
    before the network and overwritten after a strictly larger fetch, plus
    the localStorage cache utilities (`getCachedArticles`, `setCachedArticles`).
  * `src/unnamed/part_000`: the paginated variant — `fetchNews(limit, maxId?,
    uniqueStory)` builds a request URL with an optional `max_id` cursor, and
    the `App` component holds the pagination controller state
    (`articles`, `loading`, `loadingMore`, `uniqueMode`) together with
    `loadMoreArticles`, `handleFlip`, the mount/mode-toggle effect `loadNews`
    and the empty-state render guard.

JavaScript effects are made explicit: `Date.now()` becomes a `now : Int`
argument, `localStorage` becomes an `Option CacheEntry` value threaded
through, and the network becomes a `FetchOutcome` argument describing what
the HTTP layer did (transport error, non-2xx status, JSON decode error, or
a decoded payload).  Machine numbers are modelled as `Int`; the JavaScript
truthiness test `if (maxId)` on a number is modelled by `jsNumberTruthy`
(`0`, `NaN` and `undefined` are falsy — a missing/`NaN` value is `none`).
-/

/-- The display date produced by
`new Date(article.scraped_at).toLocaleDateString('en-US', ...)`.
The locale formatting itself is a platform detail; what matters to the
embedding is that the display date is a function of `scraped_at` alone,
so it is modelled as a wrapper holding the source timestamp. -/
structure DisplayDate where
  fromTimestamp : Option String
deriving DecidableEq, Repr

/-- A raw article object from the API payload
(`{ id, title, scraped_at, source, image_url, content }`).
In JavaScript any of these properties may be missing (reading them yields
`undefined`), hence every field is an `Option`. -/
structure RawArticle where
  id : Option Int
  title : Option String
  scraped_at : Option String
  source : Option String
  image_url : Option String
  content : Option String
deriving DecidableEq, Repr

/-- The normalized in-memory article shape produced by the `map` in
`fetchNews` (identical in both source files). -/
structure Article where
  id : Option Int
  headline : Option String
  date : DisplayDate
  source : Option String
  img : Option String
  content : Option String
deriving DecidableEq, Repr

/-- One raw article normalized, mirroring the `data.articles.map(...)`
body: `title` becomes `headline`, `scraped_at` is formatted into a display
date, the sentinel string `"No image found"` becomes an absent image, and
`id`, `source`, `content` pass through.  Note that no field is validated:
a missing property simply flows through as an absent value. -/
def normalizeArticle (a : RawArticle) : Article :=
  { id := a.id
    headline := a.title
    date := ⟨a.scraped_at⟩
    source := a.source
    img := if a.image_url = some "No image found" then none else a.image_url
    content := a.content }

/-- The decoded JSON envelope: `data.articles` may be missing (`none`). -/
structure Payload where
  articles : Option (List RawArticle)
deriving DecidableEq, Repr

/-- What the HTTP layer did for one request: the `fetch` call rejected
(network error), the response was non-2xx (`!response.ok`),
`response.json()` threw, or a payload was decoded. -/
inductive FetchOutcome where
  | transportError
  | httpError (status : Nat)
  | decodeError
  | ok (payload : Payload)
deriving DecidableEq, Repr

/-- `CACHE_DURATION = 10 * 60 * 1000` — ten minutes in milliseconds. -/
def CACHE_DURATION : Int := 10 * 60 * 1000

/-- The pair of localStorage keys `news_articles_cache` /
`news_cache_timestamp` as one value: the stored article array plus the
epoch-millisecond write time. -/
structure CacheEntry where
  articles : List Article
  fetchedAt : Int
deriving DecidableEq, Repr

/-- `getCachedArticles` from `src/index.tsx` lines 14–29 (identical in
`part_000`): if an entry exists and `age = Date.now() - timestamp` is
strictly below `CACHE_DURATION`, return the stored array, else `null`. -/
def getCachedArticles (now : Int) (store : Option CacheEntry) : Option (List Article) :=
  match store with
  | none => none
  | some entry =>
    if now - entry.fetchedAt < CACHE_DURATION then some entry.articles else none

/-- `setCachedArticles` from `src/index.tsx` lines 31–38: store the array
together with the current timestamp, replacing any prior entry wholesale. -/
def setCachedArticles (now : Int) (articles : List Article) : Option CacheEntry :=
  some { articles := articles, fetchedAt := now }

/-! ## The paginated fetch client and controller of `src/unnamed/part_000` -/

namespace Part000

/-- JavaScript truthiness of a `number | undefined` value: `undefined`
(`none`) and `0` are falsy.  (`NaN`, e.g. `undefined - 1`, is also falsy
and is modelled as `none` by the caller.) -/
def jsNumberTruthy : Option Int → Bool
  | none => false
  | some m => m != 0

/-- The query parameters of the GET request built by `fetchNews`
lines 58–66: `limit` always, `max_id` only when `maxId` is truthy,
`unique_story=true` only when the flag is set. -/
structure Request where
  limit : Nat
  max_id : Option Int
  unique_story : Bool
deriving DecidableEq, Repr

/-- URL construction in `fetchNews`: `if (maxId) url += "&max_id=" + maxId`. -/
def buildRequest (limit : Nat) (maxId : Option Int) (uniqueStory : Bool) : Request :=
  { limit := limit
    max_id := if jsNumberTruthy maxId then maxId else none
    unique_story := uniqueStory }

/-- The article list `fetchNews` resolves with, as a function of the HTTP
outcome (lines 68–107): any caught failure yields `[]`; a missing or empty
`articles` array yields `[]`; otherwise every raw article is normalized. -/
def fetchNewsResult : FetchOutcome → List Article
  | .ok payload =>
    match payload.articles with
    | none => []
    | some raws => if raws.isEmpty then [] else raws.map normalizeArticle
  | .transportError => []
  | .httpError _ => []
  | .decodeError => []

/-- `fetchNews(limit, maxId?, uniqueStory)` of `part_000`: the request it
issues and the article list it resolves with.  The function is total: every
failure path is caught inside and surfaces as an empty list, never as an
exception. -/
def fetchNews (limit : Nat) (maxId : Option Int) (uniqueStory : Bool)
    (outcome : FetchOutcome) : Request × List Article :=
  (buildRequest limit maxId uniqueStory, fetchNewsResult outcome)

/-- The controller state held by the `App` component:
`articles`, `loading`, `loadingMore`, `uniqueMode`
(`useState` declarations, lines 633–636). -/
structure AppState where
  articles : List Article
  loading : Bool
  loadingMore : Bool
  uniqueMode : Bool
deriving DecidableEq, Repr

/-- The initial state: `useState<any[]>([])`, `useState(true)`,
`useState(false)`, `useState(false)`. -/
def initialState : AppState :=
  { articles := [], loading := true, loadingMore := false, uniqueMode := false }

/-- The synchronous prefix of `loadMoreArticles` (lines 700–708), up to and
including issuing the fetch: early-return when the window is empty
(`articles.length === 0`, i.e. there is no last article) or a load is
already in flight; otherwise set `loadingMore`, compute
`maxId = lastArticleId - 1` from the last article of the window, and issue
`fetchNews(50, maxId, uniqueMode)`.  Returns the new state and the request
issued, if any. -/
def loadMoreStart (s : AppState) : AppState × Option Request :=
  match s.articles.getLast? with
  | none => (s, none)
  | some lastArticle =>
    if s.loadingMore then (s, none)
    else
      ({ s with loadingMore := true },
        some (buildRequest 50 (lastArticle.id.map (fun i => i - 1)) s.uniqueMode))

/-- The continuation of `loadMoreArticles` after the awaited fetch resolves
(lines 709–721): append the batch to the current window only when it is
non-empty (`setArticles(prev => [...prev, ...moreArticles])` uses the state
current at resolution time), then clear `loadingMore` in the `finally`. -/
def loadMoreResolve (s : AppState) (moreArticles : List Article) : AppState :=
  let s1 := if moreArticles.length > 0 then
      { s with articles := s.articles ++ moreArticles }
    else s
  { s1 with loadingMore := false }

/-- `loadMoreArticles` run to completion under a given network outcome:
the start prefix followed, when a request was issued, by the resolve
continuation applied to the fetched list. -/
def loadMoreArticles (s : AppState) (outcome : FetchOutcome) : AppState × Option Request :=
  match loadMoreStart s with
  | (s1, none) => (s1, none)
  | (s1, some req) => (loadMoreResolve s1 (fetchNewsResult outcome), some req)

/-- The load condition of `handleFlip` (line 750):
`(totalPages === 20 && pageNum >= 5) || (totalPages > 20 && pageNum >= totalPages - 25)`. -/
def flipTrigger (totalPages pageNum : Int) : Prop :=
  (totalPages = 20 ∧ pageNum ≥ 5) ∨ (totalPages > 20 ∧ pageNum ≥ totalPages - 25)

instance (totalPages pageNum : Int) : Decidable (flipTrigger totalPages pageNum) := by
  unfold flipTrigger
  infer_instance

/-- `handleFlip` (lines 744–753): `pageNum = e.data + 1`,
`totalPages = articles.length`; ignore the event while `loadingMore`;
otherwise start a load exactly when the trigger condition holds. -/
def handleFlip (s : AppState) (eData : Int) : AppState × Option Request :=
  if s.loadingMore then (s, none)
  else if flipTrigger s.articles.length (eData + 1) then loadMoreStart s
  else (s, none)

/-- The `loadNews` effect body (lines 726–739) run to completion with a
given fetch result: `setLoading(true)`, fetch, `setArticles(newsArticles)`
(a plain replacement, not an append), `setLoading(false)`.  It runs on
mount and again whenever `uniqueMode` changes. -/
def loadNews (s : AppState) (fetched : List Article) : AppState :=
  let s1 := { s with loading := true }
  { s1 with articles := fetched, loading := false }

/-- The unique-mode menu item (lines 800–805): `setUniqueMode(!uniqueMode)`. -/
def toggleUniqueMode (s : AppState) : AppState :=
  { s with uniqueMode := !s.uniqueMode }

/-- A mode toggle run to completion: the flag flips, which re-fires the
`loadNews` effect (its dependency array is `[uniqueMode]`); `fetched` is
what the fresh fetch under the new mode returns. -/
def modeToggleComplete (s : AppState) (fetched : List Article) : AppState :=
  loadNews (toggleUniqueMode s) fetched

/-- The derived pagination cursor, `lastArticleId - 1` over the current
window (lines 704–705); `none` when the window is empty or the last
article's id is absent. -/
def paginationCursor (s : AppState) : Option Int :=
  match s.articles.getLast? with
  | none => none
  | some a => a.id.map (fun i => i - 1)

/-- The three top-level screens of the `App` render (lines 755–783):
the loading screen while `loading`, the terminal "No news available"
screen when the window is empty, else the book. -/
inductive Screen where
  | loadingScreen
  | noNews
  | book
deriving DecidableEq, Repr

/-- The render guards: `if (loading) ...` then
`if (articles.length === 0) ...` then the flipbook. -/
def renderScreen (s : AppState) : Screen :=
  if s.loading then .loadingScreen
  else if s.articles.isEmpty then .noNews
  else .book

/-- Whether the session shows the terminal "No news available" screen. -/
def showsNoNews (s : AppState) : Bool :=
  renderScreen s = Screen.noNews

end Part000

/-! ## The cache-consulting fetch client of `src/index.tsx` -/

namespace IndexTsx

/-- The `catch` fallback of `fetchNews` (lines 107–115): return the cached
data truncated to `limit` when a cache entry was found at call start, else
an empty list; the store is untouched. -/
def fetchFallback (limit : Nat) (store : Option CacheEntry)
    (cached : Option (List Article)) : List Article × Option CacheEntry :=
  match cached with
  | some c => (c.take limit, store)
  | none => ([], store)

/-- The `try` block of `fetchNews` (lines 66–106) given the cache read
performed at call start: a non-2xx response, a decode failure or a missing
or empty `articles` array throws into the fallback; a non-empty array is
normalized and cached only when there was no cached entry or the new batch
is strictly larger (`!cached || articles.length > cached.length`). -/
def fetchAttempt (limit : Nat) (now : Int) (store : Option CacheEntry)
    (cached : Option (List Article)) : FetchOutcome → List Article × Option CacheEntry
  | .ok payload =>
    match payload.articles with
    | none => fetchFallback limit store cached
    | some raws =>
      if raws.isEmpty then fetchFallback limit store cached
      else
        let articles := raws.map normalizeArticle
        let shouldCache : Bool :=
          match cached with
          | none => true
          | some c => c.length < articles.length
        if shouldCache then (articles, setCachedArticles now articles)
        else (articles, store)
  | .transportError => fetchFallback limit store cached
  | .httpError _ => fetchFallback limit store cached
  | .decodeError => fetchFallback limit store cached

/-- `fetchNews(limit)` of `src/index.tsx`: read the cache first and return
`cached.slice(0, limit)` without any network call when the cached array
already holds at least `limit` articles; otherwise run the fetch attempt.
Returns the resolved article list and the store after the call. -/
def fetchNews (limit : Nat) (now : Int) (store : Option CacheEntry)
    (outcome : FetchOutcome) : List Article × Option CacheEntry :=
  match getCachedArticles now store with
  | some c =>
    if limit ≤ c.length then (c.take limit, store)
    else fetchAttempt limit now store (some c) outcome
  | none => fetchAttempt limit now store none outcome

end IndexTsx

/-! ## Concrete sample data used to evaluate the definitions -/

/-- A minimal article with a given id and every optional field absent. -/
def mkArticle (i : Int) : Article :=
  { id := some i, headline := none, date := ⟨none⟩, source := none,
    img := none, content := none }

/-- A window of 20 articles with descending ids 1000, 999, …, 981. -/
def window20 : List Article :=
  (List.range 20).map fun k => mkArticle (1000 - (k : Int))

/-- A loaded, quiescent controller holding the 20-article window. -/
def readyState : Part000.AppState :=
  { articles := window20, loading := false, loadingMore := false, uniqueMode := false }

/-- The same controller while a load-more request is in flight. -/
def busyState : Part000.AppState :=
  { readyState with loadingMore := true }

/-- A short initial window of 3 articles (strictly between 0 and 20). -/
def shortState : Part000.AppState :=
  { articles := [mkArticle 5, mkArticle 4, mkArticle 3],
    loading := false, loadingMore := false, uniqueMode := false }

/-- A window whose last loaded article has id 57. -/
def state57 : Part000.AppState :=
  { articles := [mkArticle 58, mkArticle 57],
    loading := false, loadingMore := false, uniqueMode := false }

/-- A window whose last loaded article has id 1. -/
def state1 : Part000.AppState :=
  { articles := [mkArticle 2, mkArticle 1],
    loading := false, loadingMore := false, uniqueMode := false }

/-- A raw article whose required `title` field is missing. -/
def missingTitleRaw : RawArticle :=
  { id := some 7, title := none, scraped_at := some "2025-05-05T00:00:00Z",
    source := some "Reuters", image_url := none, content := some "body text" }

/-- A complete raw article. -/
def rawA : RawArticle :=
  { id := some 10, title := some "a", scraped_at := some "2025-01-01",
    source := some "s", image_url := none, content := some "ca" }

/-- A second complete raw article. -/
def rawB : RawArticle :=
  { id := some 9, title := some "b", scraped_at := some "2025-01-02",
    source := some "s", image_url := none, content := some "cb" }

/-- A cache store holding one article, written at time 0. -/
def storeOne : Option CacheEntry :=
  some { articles := [mkArticle 1], fetchedAt := 0 }

/-! ## Helper lemmas -/

namespace Part000

/-- A flip event arriving while `loadingMore` is set is ignored entirely:
no state change, no request. -/
theorem handleFlip_of_loadingMore (s : AppState) (e : Int)
    (h : s.loadingMore = true) : handleFlip s e = (s, none) := by
  simp [handleFlip, h]

/-- `loadMoreResolve` always clears the in-flight flag. -/
theorem loadMoreResolve_clears_flag (s : AppState) (res : List Article) :
    (loadMoreResolve s res).loadingMore = false := rfl

/-- If a flip event issued a request, the resulting state has the
in-flight flag set. -/
theorem handleFlip_isSome_flag (s : AppState) (e : Int)
    (h : ((handleFlip s e).2).isSome = true) :
    ((handleFlip s e).1).loadingMore = true := by
  by_cases hlm : s.loadingMore = true
  · simp [handleFlip, hlm] at h
  · by_cases htrig : flipTrigger s.articles.length (e + 1)
    · simp only [handleFlip, hlm, htrig, if_true, if_false, Bool.false_eq_true,
        if_pos, if_neg] at h ⊢
      unfold loadMoreStart at h ⊢
      cases hl : s.articles.getLast? with
      | none => simp [hl] at h
      | some lastArticle => simp [hl, hlm]
    · simp [handleFlip, hlm, htrig] at h

/-- The pagination cursor is a function of the window alone. -/
theorem paginationCursor_congr (s t : AppState) (h : t.articles = s.articles) :
    paginationCursor t = paginationCursor s := by
  unfold paginationCursor
  rw [h]

/-- A session with a non-empty window never shows the terminal
"No news available" screen. -/
theorem showsNoNews_of_ne_nil (s : AppState) (h : s.articles ≠ []) :
    showsNoNews s = false := by
  unfold showsNoNews renderScreen
  cases harts : s.articles with
  | nil => exact absurd harts h
  | cons a l =>
    by_cases hl : s.loading = true
    · simp [hl]
    · simp [hl, harts]

end Part000

/-! ## Claim theorems -/

/-- C1: for every non-empty article window, the cursor passed to the next
load-more fetch is the id of the last article currently in the window
minus one; when that id is not 1 the issued request carries
`max_id = lastId - 1`; and the request a flip event may issue is exactly
the one `loadMoreStart` derives from the current state — it does not
depend on the flip event's page number. -/
theorem loadMore_cursor_is_last_id_minus_one (s : Part000.AppState)
    (lastArticle : Article) (n : Int)
    (hlm : s.loadingMore = false)
    (hlast : s.articles.getLast? = some lastArticle)
    (hid : lastArticle.id = some n) :
    (Part000.loadMoreStart s).2 =
      some (Part000.buildRequest 50 (some (n - 1)) s.uniqueMode) ∧
    (n ≠ 1 →
      (Part000.buildRequest 50 (some (n - 1)) s.uniqueMode).max_id = some (n - 1)) ∧
    (∀ eData : Int, (Part000.handleFlip s eData).2 = none ∨
      (Part000.handleFlip s eData).2 = (Part000.loadMoreStart s).2) := by
  refine ⟨?_, ?_, ?_⟩
  · simp [Part000.loadMoreStart, hlast, hlm, hid]
  · intro hn
    have h1 : ((n - 1 : Int) != 0) = true := by
      simp only [bne_iff_ne, ne_eq]
      omega
    simp [Part000.buildRequest, Part000.jsNumberTruthy, h1]
  · intro eData
    by_cases htrig : Part000.flipTrigger s.articles.length (eData + 1)
    · right
      simp [Part000.handleFlip, hlm, htrig]
    · left
      simp [Part000.handleFlip, hlm, htrig]

/-- Witness for C1: in a window whose last article has id 57, the issued
load-more request carries `max_id = 56`. -/
theorem loadMore_cursor_is_last_id_minus_one_witness :
    (Part000.loadMoreStart state57).2 =
      some (Part000.buildRequest 50 (some 56) false) ∧
    (Part000.buildRequest 50 (some 56) false).max_id = some 56 := by
  have h := loadMore_cursor_is_last_id_minus_one state57 (mkArticle 57) 57
    rfl (by decide) rfl
  exact ⟨h.1, h.2.1 (by decide)⟩

/-- C9: when the window's last article has id 1, the computed cursor
`lastArticleId - 1 = 0` is falsy, so the issued request omits the `max_id`
parameter entirely — it is the very request that would be built with no
cursor at all, i.e. one asking for the newest articles again. -/
theorem loadMore_cursor_zero_is_omitted (s : Part000.AppState)
    (lastArticle : Article)
    (hlm : s.loadingMore = false)
    (hlast : s.articles.getLast? = some lastArticle)
    (hid : lastArticle.id = some 1) :
    (Part000.loadMoreStart s).2 =
      some (Part000.buildRequest 50 none s.uniqueMode) ∧
    (Part000.buildRequest 50 none s.uniqueMode).max_id = none ∧
    (Part000.buildRequest 50 none s.uniqueMode).limit = 50 := by
  refine ⟨?_, rfl, rfl⟩
  simp [Part000.loadMoreStart, hlast, hlm, hid, Part000.buildRequest,
    Part000.jsNumberTruthy]

/-- Witness for C9: in a window whose last article has id 1, the issued
load-more request has no `max_id` parameter. -/
theorem loadMore_cursor_zero_is_omitted_witness :
    (Part000.loadMoreStart state1).2 =
      some (Part000.buildRequest 50 none false) ∧
    (Part000.buildRequest 50 none false).max_id = none :=
  ⟨(loadMore_cursor_zero_is_omitted state1 (mkArticle 1) rfl (by decide) rfl).1,
   (loadMore_cursor_zero_is_omitted state1 (mkArticle 1) rfl (by decide) rfl).2.1⟩

/-- C10: for every window whose length is strictly between 0 and 20, no
flip event ever triggers a load-more request — the flip handler leaves the
state unchanged and issues no request, whatever the reader's page is. -/
theorem short_window_never_prefetches (s : Part000.AppState) (eData : Int)
    (h1 : 0 < s.articles.length) (h2 : s.articles.length < 20) :
    Part000.handleFlip s eData = (s, none) := by
  have htrig : ¬ Part000.flipTrigger s.articles.length (eData + 1) := by
    unfold Part000.flipTrigger
    rintro (⟨h, -⟩ | ⟨h, -⟩) <;> omega
  by_cases hlm : s.loadingMore = true
  · simp [Part000.handleFlip, hlm]
  · simp [Part000.handleFlip, hlm, htrig]

/-- Witness for C10: a 3-article window ignores a flip event. -/
theorem short_window_never_prefetches_witness :
    Part000.handleFlip shortState 100 = (shortState, none) :=
  short_window_never_prefetches shortState 100 (by decide) (by decide)

/-- C2: while a load-more request is in flight (`loadingMore` set), every
flip event is ignored (no state change, no request); and whenever a flip
event does issue a request, the resulting state has `loadingMore` set, so
every further flip event before the load resolves issues no request and
changes nothing — exactly one network call is outstanding until
`loadMoreResolve` clears the flag. -/
theorem flip_at_most_one_inflight_load (s : Part000.AppState) (e1 : Int) :
    (s.loadingMore = true → ∀ e : Int, Part000.handleFlip s e = (s, none)) ∧
    (((Part000.handleFlip s e1).2).isSome = true →
      ((Part000.handleFlip s e1).1).loadingMore = true ∧
      (∀ e2 : Int, Part000.handleFlip ((Part000.handleFlip s e1).1) e2 =
        ((Part000.handleFlip s e1).1, none)) ∧
      (∀ res : List Article,
        (Part000.loadMoreResolve ((Part000.handleFlip s e1).1) res).loadingMore =
          false)) := by
  constructor
  · intro hlm e
    exact Part000.handleFlip_of_loadingMore s e hlm
  · intro hsome
    have hflag := Part000.handleFlip_isSome_flag s e1 hsome
    exact ⟨hflag,
      fun e2 => Part000.handleFlip_of_loadingMore _ e2 hflag,
      fun res => Part000.loadMoreResolve_clears_flag _ res⟩

/-- Witness for C2: with the in-flight flag set the flip handler is a
no-op, and a flip that does fire a load leaves the flag set. -/
theorem flip_at_most_one_inflight_load_witness :
    Part000.handleFlip busyState 4 = (busyState, none) ∧
    ((Part000.handleFlip readyState 4).1).loadingMore = true := by
  refine ⟨(flip_at_most_one_inflight_load busyState 0).1 rfl 4, ?_⟩
  exact ((flip_at_most_one_inflight_load readyState 4).2 (by decide)).1

/-- C3: toggling unique-story mode is a hard reset, not a merge — after
the toggle's reload effect completes, the window is exactly the list the
fresh fetch under the new mode returned, the mode flag is flipped, and the
loading flag is cleared.  (`setArticles(newsArticles)` in the `loadNews`
effect replaces the window; it does not append.) -/
theorem mode_toggle_is_hard_reset (s : Part000.AppState) (fetched : List Article) :
    (Part000.modeToggleComplete s fetched).articles = fetched ∧
    (Part000.modeToggleComplete s fetched).uniqueMode = !s.uniqueMode ∧
    (Part000.modeToggleComplete s fetched).loading = false :=
  ⟨rfl, rfl, rfl⟩

/-- C4: every transport failure (network error, non-2xx status) and every
decode failure (malformed JSON, missing or empty `articles` array) is
caught inside `fetchNews` and surfaces as an empty article list; the
function is total, so no exception reaches the pagination controller. -/
theorem fetch_failures_yield_empty_list :
    (∀ (limit : Nat) (maxId : Option Int) (u : Bool),
      (Part000.fetchNews limit maxId u .transportError).2 = []) ∧
    (∀ (limit : Nat) (maxId : Option Int) (u : Bool) (status : Nat),
      (Part000.fetchNews limit maxId u (.httpError status)).2 = []) ∧
    (∀ (limit : Nat) (maxId : Option Int) (u : Bool),
      (Part000.fetchNews limit maxId u .decodeError).2 = []) ∧
    (∀ (limit : Nat) (maxId : Option Int) (u : Bool),
      (Part000.fetchNews limit maxId u (.ok ⟨none⟩)).2 = []) ∧
    (∀ (limit : Nat) (maxId : Option Int) (u : Bool),
      (Part000.fetchNews limit maxId u (.ok ⟨some []⟩)).2 = []) :=
  ⟨fun _ _ _ => rfl, fun _ _ _ _ => rfl, fun _ _ _ => rfl,
   fun _ _ _ => rfl, fun _ _ _ => rfl⟩

namespace Part000

/-- The synchronous prefix of a load-more never changes the window. -/
theorem loadMoreStart_articles (s : AppState) :
    ((loadMoreStart s).1).articles = s.articles := by
  unfold loadMoreStart
  cases hl : s.articles.getLast? with
  | none => rfl
  | some a => by_cases hlm : s.loadingMore = true <;> simp [hlm]

end Part000

/-- C5: a load-more that resolves with zero articles leaves the window
and the derived pagination cursor unchanged and cannot put the session
into the terminal "No news available" state when the window was
non-empty; that state arises when the very first fetch (from the empty
initial state) yields nothing. -/
theorem empty_batch_leaves_window_unchanged (s : Part000.AppState)
    (o : FetchOutcome)
    (hne : s.articles ≠ [])
    (hempty : Part000.fetchNewsResult o = []) :
    ((Part000.loadMoreArticles s o).1).articles = s.articles ∧
    Part000.paginationCursor ((Part000.loadMoreArticles s o).1) =
      Part000.paginationCursor s ∧
    Part000.showsNoNews ((Part000.loadMoreArticles s o).1) = false ∧
    Part000.showsNoNews (Part000.loadNews Part000.initialState []) = true := by
  have harts : ((Part000.loadMoreArticles s o).1).articles = s.articles := by
    unfold Part000.loadMoreArticles
    rcases hstart : Part000.loadMoreStart s with ⟨s1, req⟩
    have h1 : s1.articles = s.articles := by
      have h2 := Part000.loadMoreStart_articles s
      rw [hstart] at h2
      exact h2
    cases req with
    | none => simpa using h1
    | some r => simp [Part000.loadMoreResolve, hempty, h1]
  refine ⟨harts, Part000.paginationCursor_congr _ _ harts, ?_, rfl⟩
  exact Part000.showsNoNews_of_ne_nil _ (harts ▸ hne)

/-- Witness for C5: a transport failure during load-more (which resolves
as an empty batch) leaves a 3-article window intact and off the terminal
empty screen. -/
theorem empty_batch_leaves_window_unchanged_witness :
    ((Part000.loadMoreArticles shortState .transportError).1).articles =
      shortState.articles ∧
    Part000.showsNoNews ((Part000.loadMoreArticles shortState .transportError).1) =
      false := by
  have h := empty_batch_leaves_window_unchanged shortState .transportError
    (by decide) rfl
  exact ⟨h.1, h.2.2.1⟩

/-- C6: a cache entry written at time `T` is returned by a read at any
time strictly before `T` plus the ten-minute freshness window, and
reported absent at any time at or after it. -/
theorem cache_freshness_strict_window (arts : List Article) (T now : Int) :
    (now < T + CACHE_DURATION →
      getCachedArticles now (some ⟨arts, T⟩) = some arts) ∧
    (T + CACHE_DURATION ≤ now →
      getCachedArticles now (some ⟨arts, T⟩) = none) := by
  have hC : CACHE_DURATION = 600000 := rfl
  constructor
  · intro h
    rw [hC] at h
    simp only [getCachedArticles, hC]
    rw [if_pos (by omega)]
  · intro h
    rw [hC] at h
    simp only [getCachedArticles, hC]
    rw [if_neg (by omega)]

/-- Witness for C6: written at `T = 0`, a read at 9 min 59 s returns the
entry and a read at 10 min 01 s reports absent. -/
theorem cache_freshness_strict_window_witness :
    getCachedArticles 599000 (some ⟨[mkArticle 1], 0⟩) = some [mkArticle 1] ∧
    getCachedArticles 601000 (some ⟨[mkArticle 1], 0⟩) = none :=
  ⟨(cache_freshness_strict_window [mkArticle 1] 0 599000).1 (by decide),
   (cache_freshness_strict_window [mkArticle 1] 0 601000).2 (by decide)⟩

/-- C7 counterexample: a batch containing an article object whose required
`title` field is missing is NOT returned as empty — the fetch client
returns the batch with the article normalized, its headline simply
absent.  This refutes the claim that normalization fails closed on a
missing required field. -/
theorem normalization_keeps_incomplete_articles :
    missingTitleRaw.title = none ∧
    Part000.fetchNewsResult (.ok ⟨some [missingTitleRaw]⟩) =
      [normalizeArticle missingTitleRaw] ∧
    Part000.fetchNewsResult (.ok ⟨some [missingTitleRaw]⟩) ≠ [] ∧
    (normalizeArticle missingTitleRaw).headline = none := by
  refine ⟨rfl, rfl, ?_, rfl⟩
  decide

/-- C7 amended: normalization does not validate fields at all — for every
batch whose `articles` array is present and non-empty, the fetch client
returns one normalized record per raw article (missing fields flow
through as absent values); the whole batch is returned as empty only when
the array itself is missing or empty or the request failed. -/
theorem normalization_is_passthrough (raws : List RawArticle)
    (h : raws ≠ []) :
    Part000.fetchNewsResult (.ok ⟨some raws⟩) = raws.map normalizeArticle ∧
    (Part000.fetchNewsResult (.ok ⟨some raws⟩)).length = raws.length := by
  have hie : raws.isEmpty = false := by
    cases raws with
    | nil => exact absurd rfl h
    | cons a l => rfl
  constructor
  · simp [Part000.fetchNewsResult, hie]
  · simp [Part000.fetchNewsResult, hie]

/-- Witness for C7's amended claim: the one-element batch with a missing
title normalizes to a one-element result. -/
theorem normalization_is_passthrough_witness :
    (Part000.fetchNewsResult (.ok ⟨some [missingTitleRaw]⟩)).length = 1 :=
  (normalization_is_passthrough [missingTitleRaw] (by decide)).2

namespace IndexTsx

/-- The catch fallback never touches the store. -/
theorem fetchFallback_store (limit : Nat) (store : Option CacheEntry)
    (cached : Option (List Article)) :
    (fetchFallback limit store cached).2 = store := by
  cases cached <;> rfl

/-- If the fetch attempt leaves the store alone for every possible cache
read, so does the whole `fetchNews` call (the cache-hit early return also
leaves it alone). -/
theorem fetchNews_store_frame (limit : Nat) (now : Int)
    (store : Option CacheEntry) (o : FetchOutcome)
    (h : ∀ cached, (fetchAttempt limit now store cached o).2 = store) :
    (fetchNews limit now store o).2 = store := by
  unfold fetchNews
  cases hc : getCachedArticles now store with
  | none => exact h none
  | some c =>
    dsimp only
    by_cases hl : limit ≤ c.length
    · rw [if_pos hl]
    · rw [if_neg hl]
      exact h (some c)

end IndexTsx

/-- C8: the cache entry is overwritten — wholesale, via
`setCachedArticles` — exactly on those fetches that actually reach the
network, succeed with a non-empty batch, and whose normalized batch is
strictly larger than the freshly read cached array (or there was no fresh
entry); a successful batch of the same or smaller size, any failure, and
the cache-hit early return all leave the stored entry untouched. -/
theorem cache_overwrite_exactly_on_strictly_larger (limit : Nat) (now : Int)
    (store : Option CacheEntry) (raws : List RawArticle) :
    (∀ c, getCachedArticles now store = some c → limit ≤ c.length →
      ∀ o : FetchOutcome, (IndexTsx.fetchNews limit now store o).2 = store) ∧
    (raws ≠ [] → getCachedArticles now store = none →
      (IndexTsx.fetchNews limit now store (.ok ⟨some raws⟩)).2 =
        setCachedArticles now (raws.map normalizeArticle)) ∧
    (∀ c, raws ≠ [] → getCachedArticles now store = some c →
      c.length < limit → c.length < (raws.map normalizeArticle).length →
      (IndexTsx.fetchNews limit now store (.ok ⟨some raws⟩)).2 =
        setCachedArticles now (raws.map normalizeArticle)) ∧
    (∀ c, getCachedArticles now store = some c → c.length < limit →
      (raws.map normalizeArticle).length ≤ c.length →
      (IndexTsx.fetchNews limit now store (.ok ⟨some raws⟩)).2 = store) ∧
    ((IndexTsx.fetchNews limit now store .transportError).2 = store) ∧
    (∀ status : Nat,
      (IndexTsx.fetchNews limit now store (.httpError status)).2 = store) ∧
    ((IndexTsx.fetchNews limit now store .decodeError).2 = store) ∧
    ((IndexTsx.fetchNews limit now store (.ok ⟨none⟩)).2 = store) ∧
    ((IndexTsx.fetchNews limit now store (.ok ⟨some []⟩)).2 = store) := by
  refine ⟨?_, ?_, ?_, ?_, ?_, ?_, ?_, ?_, ?_⟩
  · intro c hc hlen o
    simp only [IndexTsx.fetchNews, hc]
    rw [if_pos hlen]
  · intro hne hc
    have hie : raws.isEmpty = false := by
      cases raws with
      | nil => exact absurd rfl hne
      | cons r rs => rfl
    simp only [IndexTsx.fetchNews, hc]
    simp [IndexTsx.fetchAttempt, hie]
  · intro c hne hc hclim hlt
    have hie : raws.isEmpty = false := by
      cases raws with
      | nil => exact absurd rfl hne
      | cons r rs => rfl
    have hlt2 : c.length < raws.length := by
      simpa using hlt
    simp only [IndexTsx.fetchNews, hc]
    rw [if_neg (by omega)]
    simp [IndexTsx.fetchAttempt, hie, hlt2]
  · intro c hc hclim hge
    simp only [IndexTsx.fetchNews, hc]
    rw [if_neg (by omega)]
    rcases raws with _ | ⟨r, rs⟩
    · simp [IndexTsx.fetchAttempt, IndexTsx.fetchFallback]
    · have hge2 : rs.length + 1 ≤ c.length := by
        simpa using hge
      have hnlt : ¬ c.length < rs.length + 1 := by omega
      simp [IndexTsx.fetchAttempt, hnlt]
  · exact IndexTsx.fetchNews_store_frame limit now store .transportError
      (fun cached => IndexTsx.fetchFallback_store limit store cached)
  · intro status
    exact IndexTsx.fetchNews_store_frame limit now store (.httpError status)
      (fun cached => IndexTsx.fetchFallback_store limit store cached)
  · exact IndexTsx.fetchNews_store_frame limit now store .decodeError
      (fun cached => IndexTsx.fetchFallback_store limit store cached)
  · exact IndexTsx.fetchNews_store_frame limit now store (.ok ⟨none⟩)
      (fun cached => IndexTsx.fetchFallback_store limit store cached)
  · exact IndexTsx.fetchNews_store_frame limit now store (.ok ⟨some []⟩)
      (fun cached => IndexTsx.fetchFallback_store limit store cached)

/-- Witness for C8: with one fresh cached article, a successful fetch of
two articles overwrites the entry wholesale, and a transport failure
leaves it untouched. -/
theorem cache_overwrite_exactly_on_strictly_larger_witness :
    (IndexTsx.fetchNews 5 1000 storeOne (.ok ⟨some [rawA, rawB]⟩)).2 =
      setCachedArticles 1000 ([rawA, rawB].map normalizeArticle) ∧
    (IndexTsx.fetchNews 5 1000 storeOne .transportError).2 = storeOne := by
  have h := cache_overwrite_exactly_on_strictly_larger 5 1000 storeOne [rawA, rawB]
  exact ⟨h.2.2.1 [mkArticle 1] (by decide) (by decide) (by decide) (by decide),
    h.2.2.2.2.1⟩
